import Mathlib

/-!
Shallow embedding of the `create-bsv-app` CLI (`bin/bsv-app.js`), a scaffolding
tool that selects a template, clones it, strips history, rewrites manifest
metadata, optionally installs dependencies and optionally re-initializes git.
External effects (clone, delete, manifest write, install, git init) are
recorded as an explicit trace; `process.exit(code)` and uncaught exceptions
reaching `run().catch` are modelled as an `Option Nat` abort code that
short-circuits the remaining steps.
-/

deriving instance DecidableEq for Except

/-- Leaf JSON values appearing in the package manifests this tool rewrites
(`name`, `version`, `author` are strings; numbers included for generality). -/
inductive Json where
  | str : String → Json
  | num : Int → Json
deriving DecidableEq, Repr

/-- The choices gathered by the interaction flow: template identifier,
project name and author name (`template`, `projectName`, `authorName` in
`bin/bsv-app.js`). -/
structure ScaffoldRequest where
  template : String
  projectName : String
  authorName : String
deriving DecidableEq, Repr

/-- Parsed CLI flags: `-s, --skip-install`, `-g, --git-init`, `-y, --yes`
(`program.opts()` in `bin/bsv-app.js`). -/
structure RunOptions where
  skipInstall : Bool
  gitInit : Bool
  yes : Bool
deriving DecidableEq, Repr

/-- The failure modes distinguished by the `catch` around the prompt block in
`run`: `error.isTtyError`, a message containing "User force closed the
prompt", and any other error message. -/
inductive PromptError where
  | ttyError : PromptError
  | forceClosed : PromptError
  | other : String → PromptError
deriving DecidableEq, Repr

/-- State of the `package.json` file in a directory: missing, present but not
parseable JSON (so `fs.readJsonSync` throws), or parsed into a flat object. -/
inductive ManifestState where
  | absent : ManifestState
  | unparseable : ManifestState
  | parsed : List (String × Json) → ManifestState
deriving DecidableEq, Repr

/-- Shape of the cloned project tree, as far as the tool inspects it:
presence of `.git`, state of the root `package.json`, and existence plus
manifest presence of the `frontend` and `backend` subdirectories. -/
structure ProjTree where
  hasGitDir : Bool
  rootManifest : ManifestState
  frontendExists : Bool
  frontendHasManifest : Bool
  backendExists : Bool
  backendHasManifest : Bool
deriving DecidableEq, Repr

/-- Environment a run executes in: the current working directory, whether the
resolved target directory already exists, whether the clone subprocess
succeeds, the tree the clone produces, which directories' `npm install`
succeeds, and whether `git init` succeeds. -/
structure Env where
  cwd : String
  targetExists : Bool
  cloneOk : Bool
  tree : ProjTree
  installOk : String → Bool
  gitInitOk : Bool

/-- Observable external effects of a run, in order of occurrence. Only
`clone`, `removeGitDir`, `writeManifest`, `install` and `gitInitE` mutate the
filesystem; `warnNoManifest` is a console warning. -/
inductive Effect where
  | clone : Option String → String → Effect
  | removeGitDir : String → Effect
  | writeManifest : String → String → Effect
  | install : String → Effect
  | warnNoManifest : String → Effect
  | gitInitE : String → Effect
deriving DecidableEq, Repr

/-- The template registry literal `templates` in `bin/bsv-app.js`: an ordered
label-to-URL mapping with a single live entry (the second is commented out in
the source). -/
def templates : List (String × String) :=
  [("Meter - A feature-packed starting point", "https://github.com/p2ppsr/meter.git")]

/-- JavaScript object property access `templates[template]`: the value for
the key when present, `undefined` (here `none`) otherwise. -/
def templatesLookup (label : String) : Option String :=
  templates.lookup label

/-- Exit code of the global `process.on('SIGINT')` handler installed at the
top of `bin/bsv-app.js`: it prints a goodbye message and calls
`process.exit(0)`. -/
def sigintExitCode : Nat := 0

/-- The interaction flow of `run` (the `try` block choosing template, project
name and author). `yes` is the `--yes` flag. Each prompt either delivers an
answer or raises; the surrounding `catch` prints a message and calls
`process.exit(0)` for every error kind. Returns the request or the exit code,
together with the number of prompt invocations performed. -/
def interactionFlow (yes : Bool)
    (templateAns nameAns authorAns : Except PromptError String) :
    Except Nat ScaffoldRequest × Nat :=
  if yes then
    (Except.ok ⟨"meter", "bsv-app", ""⟩, 0)
  else
    match templateAns with
    | Except.error _ => (Except.error 0, 1)
    | Except.ok t =>
      match nameAns with
      | Except.error _ => (Except.error 0, 2)
      | Except.ok n =>
        match authorAns with
        | Except.error _ => (Except.error 0, 3)
        | Except.ok a => (Except.ok ⟨t, n, a⟩, 3)

/-- Splitting a character list at every separator, character by character. -/
def splitSegsAux : List Char → List Char → List (List Char)
  | [], acc => [acc.reverse]
  | c :: cs, acc =>
    if c = '/' then acc.reverse :: splitSegsAux cs []
    else splitSegsAux cs (c :: acc)

/-- Path segments of a POSIX path string (empty segments dropped). -/
def splitPath (s : String) : List String :=
  ((splitSegsAux s.data []).filter (fun seg => seg ≠ [])).map String.mk

/-- Normalization of path segments as performed by Node's path resolution:
`.` is dropped, `..` removes the previous segment (clamped at the root). -/
def normSegs (segs : List String) : List String :=
  segs.foldl
    (fun acc seg =>
      if seg = "." then acc
      else if seg = ".." then acc.dropLast
      else acc ++ [seg])
    []

/-- Model of `path.resolve(cwd, p)` (POSIX, `cwd` assumed absolute): an
absolute `p` stands alone, a relative `p` is joined onto `cwd`; the joined
path is then normalized. -/
def resolvePath (cwd p : String) : String :=
  let joined := if p.data.head? = some '/' then p else cwd ++ "/" ++ p
  "/" ++ String.intercalate "/" (normSegs (splitPath joined))

/-- Whether path `q` lies strictly under directory `cwd`. -/
def isUnder (cwd q : String) : Bool :=
  (cwd ++ "/").data.isPrefixOf q.data

/-- JavaScript object property assignment `obj[k] = v` on a flat object:
overwrites in place when the key exists, appends otherwise. -/
def setKey (o : List (String × Json)) (k : String) (v : Json) :
    List (String × Json) :=
  if o.any (fun p => p.1 = k) then
    o.map (fun p => if p.1 = k then (k, v) else p)
  else
    o ++ [(k, v)]

/-- The `customizations` object built in `run`: `name` is set when
`projectName` is truthy (non-empty), `author` when `authorName` is truthy. -/
def reqCustomizations (projectName authorName : String) :
    List (String × Json) :=
  (if projectName ≠ "" then [("name", Json.str projectName)] else []) ++
  (if authorName ≠ "" then [("author", Json.str authorName)] else [])

/-- The loop `for (const key of Object.keys(customizations))
packageJson[key] = customizations[key]` in `customizePackageJson`. -/
def applyCustomizations (o : List (String × Json))
    (cs : List (String × Json)) : List (String × Json) :=
  cs.foldl (fun acc kv => setKey acc kv.1 kv.2) o

/-- Serialization of a leaf value as by `JSON.stringify` (strings here never
contain characters needing escapes). -/
def serializeJsonVal : Json → String
  | Json.str s => "\"" ++ s ++ "\""
  | Json.num n => toString n

/-- Serialization of a flat object as by `JSON.stringify(obj, null, 2)`:
2-space indentation, one `"key": value` line per field. -/
def serializeObj (o : List (String × Json)) : String :=
  match o with
  | [] => "\x7b\x7d"
  | _ =>
    "\x7b\n" ++
    String.intercalate ",\n"
      (o.map (fun p => "  \"" ++ p.1 ++ "\": " ++ serializeJsonVal p.2)) ++
    "\n\x7d"

/-- File content produced by `fs.writeJsonSync(path, obj, \x7b spaces: 2 \x7d)`:
the 2-space-indented serialization plus the trailing newline jsonfile
appends. -/
def writeJsonFileContent (o : List (String × Json)) : String :=
  serializeObj o ++ "\n"

/-- Sequencing of two effectful steps: if the first aborted (exited or threw),
its trace and code stand; otherwise the second step runs after it. -/
def stepSeq (a b : List Effect × Option Nat) : List Effect × Option Nat :=
  match a.2 with
  | some c => (a.1, some c)
  | none => (a.1 ++ b.1, b.2)

/-- The `customizePackageJson(projectDir, customizations)` function: if no
manifest file exists, do nothing; if `fs.readJsonSync` throws (unparseable
JSON), the exception escapes to `run().catch`, which exits 1; otherwise
overwrite the customized keys and rewrite the file with 2-space
indentation. -/
def customizePackageJson (rootManifest : ManifestState) (projectDir : String)
    (customizations : List (String × Json)) : List Effect × Option Nat :=
  match rootManifest with
  | ManifestState.absent => ([], none)
  | ManifestState.unparseable => ([], some 1)
  | ManifestState.parsed o =>
    ([Effect.writeManifest (projectDir ++ "/package.json")
        (writeJsonFileContent (applyCustomizations o customizations))], none)

/-- The `installInDir` closure of `installDependencies`: with a manifest
present, run `npm install` there (a failure exits 1); otherwise warn and
skip. -/
def installInDir (ok : Bool) (dir : String) (hasManifest : Bool) :
    List Effect × Option Nat :=
  if hasManifest then
    if ok then ([Effect.install dir], none)
    else ([Effect.install dir], some 1)
  else
    ([Effect.warnNoManifest dir], none)

/-- Whether a `package.json` file exists (`fs.existsSync(packageJsonPath)`). -/
def hasManifestFile : ManifestState → Bool
  | ManifestState.absent => false
  | ManifestState.unparseable => true
  | ManifestState.parsed _ => true

/-- The `installDependencies(projectDir)` function: install in the root, then
in `frontend` if that directory exists, then in `backend` if it exists. -/
def installDependencies (tree : ProjTree) (installOk : String → Bool)
    (projectDir : String) : List Effect × Option Nat :=
  stepSeq
    (installInDir (installOk projectDir) projectDir
      (hasManifestFile tree.rootManifest))
    (stepSeq
      (if tree.frontendExists then
        installInDir (installOk (projectDir ++ "/frontend"))
          (projectDir ++ "/frontend") tree.frontendHasManifest
      else ([], none))
      (if tree.backendExists then
        installInDir (installOk (projectDir ++ "/backend"))
          (projectDir ++ "/backend") tree.backendHasManifest
      else ([], none)))

/-- The `cloneTemplate(templateUrl, projectDir)` call: the clone subprocess is
invoked with whatever `templates[template]` yielded (possibly `undefined`);
on failure the tool exits 1. -/
def cloneStep (cloneOk : Bool) (url : Option String) (projectDir : String) :
    List Effect × Option Nat :=
  ([Effect.clone url projectDir], if cloneOk then none else some 1)

/-- History stripping: `fs.removeSync(gitDir)` when the cloned tree contains
a `.git` directory. -/
def stripStep (tree : ProjTree) (projectDir : String) : List Effect × Option Nat :=
  (if tree.hasGitDir then [Effect.removeGitDir (projectDir ++ "/.git")]
   else [], none)

/-- The optional `git init` step under `--git-init`; failure exits 1. -/
def gitInitStep (gitInitOk : Bool) (opts : RunOptions) (projectDir : String) :
    List Effect × Option Nat :=
  if opts.gitInit then
    ([Effect.gitInitE projectDir], if gitInitOk then none else some 1)
  else ([], none)

/-- The materializer part of `run` (after the request is built): resolve the
target, refuse an existing directory with exit 1, clone, strip history,
customize the manifest, install unless `--skip-install`, git-init if
`--git-init`. The returned `Nat` is the process exit code (0 on completion). -/
def materialize (env : Env) (req : ScaffoldRequest) (opts : RunOptions) :
    List Effect × Nat :=
  let projectDir := resolvePath env.cwd req.projectName
  let out :=
    if env.targetExists then ([], some 1)
    else
      stepSeq (cloneStep env.cloneOk (templatesLookup req.template) projectDir)
        (stepSeq (stripStep env.tree projectDir)
          (stepSeq
            (customizePackageJson env.tree.rootManifest projectDir
              (reqCustomizations req.projectName req.authorName))
            (stepSeq
              (if opts.skipInstall then ([], none)
               else installDependencies env.tree env.installOk projectDir)
              (gitInitStep env.gitInitOk opts projectDir))))
  (out.1, out.2.getD 0)

/-- Helper: every resolved path starts with the root separator. -/
theorem resolvePath_head (cwd p : String) :
    (resolvePath cwd p).data.head? = some '/' := by
  unfold resolvePath
  rw [String.data_append]
  rfl

/-- C1 counterexample: with `--yes`, the request's template field is the
literal "meter", which is neither the Registry's default (first) label nor
any Registry label at all, so the produced request is not
`(Registry default label, "bsv-app", "")`. -/
theorem c1_noninteractive_counterexample :
    (interactionFlow true (Except.ok "") (Except.ok "") (Except.ok "")).1 ≠
      Except.ok ⟨"Meter - A feature-packed starting point", "bsv-app", ""⟩ ∧
    "meter" ∉ templates.map Prod.fst := by
  decide

/-- C1 (amended): with `--yes` and no other flags, the interaction flow
produces the request (template "meter", project name "bsv-app", empty
author) with zero prompt invocations; the fixed template identifier "meter"
is a hardcoded literal that is not a label of the Registry. -/
theorem c1_noninteractive_defaults
    (a b c : Except PromptError String) :
    interactionFlow true a b c = (Except.ok ⟨"meter", "bsv-app", ""⟩, 0) ∧
    "meter" ∉ templates.map Prod.fst :=
  ⟨rfl, by decide⟩

/-- C2: customization of the manifest (name "x", version "1.0.0") with
request name "foo" and author "bar" rewrites exactly (name "foo",
version "1.0.0", author "bar"), other fields untouched, serialized with
2-space indentation; with no manifest file the step does nothing. -/
theorem c2_customize_manifest :
    customizePackageJson
        (ManifestState.parsed [("name", Json.str "x"), ("version", Json.str "1.0.0")])
        "/w/p" (reqCustomizations "foo" "bar") =
      ([Effect.writeManifest "/w/p/package.json"
          "\x7b\n  \"name\": \"foo\",\n  \"version\": \"1.0.0\",\n  \"author\": \"bar\"\n\x7d\n"],
        none) ∧
    applyCustomizations [("name", Json.str "x"), ("version", Json.str "1.0.0")]
        (reqCustomizations "foo" "bar") =
      [("name", Json.str "foo"), ("version", Json.str "1.0.0"),
        ("author", Json.str "bar")] ∧
    customizePackageJson ManifestState.absent "/w/p"
        (reqCustomizations "foo" "bar") = ([], none) := by
  refine ⟨?_, ?_, rfl⟩ <;> rfl

/-- C3: when the resolved target directory already exists, the materializer
performs no effect at all (empty trace: no clone, delete, manifest write,
install or init) and exits with code 1. -/
theorem c3_target_collision (env : Env) (req : ScaffoldRequest)
    (opts : RunOptions) (h : env.targetExists = true) :
    materialize env req opts = ([], 1) := by
  simp [materialize, h]

/-- C3 witness at a concrete environment. -/
theorem c3_target_collision_witness :
    materialize
        ⟨"/w", true, true, ⟨false, ManifestState.absent, false, false, false, false⟩,
          fun _ => true, true⟩
        ⟨"meter", "bsv-app", ""⟩ ⟨false, false, true⟩ = ([], 1) :=
  c3_target_collision _ _ _ rfl

/-- C4: with a root manifest, a frontend directory with a manifest and a
backend directory without one, and the two installs succeeding, dependency
installation invokes install exactly twice (root then frontend), warns for
backend, and continues (no abort). -/
theorem c4_install_layout (tree : ProjTree) (installOk : String → Bool)
    (dir : String)
    (h1 : hasManifestFile tree.rootManifest = true)
    (h2 : tree.frontendExists = true) (h3 : tree.frontendHasManifest = true)
    (h4 : tree.backendExists = true) (h5 : tree.backendHasManifest = false)
    (h6 : installOk dir = true) (h7 : installOk (dir ++ "/frontend") = true) :
    installDependencies tree installOk dir =
      ([Effect.install dir, Effect.install (dir ++ "/frontend"),
        Effect.warnNoManifest (dir ++ "/backend")], none) := by
  simp [installDependencies, installInDir, stepSeq, h1, h2, h3, h4, h5, h6, h7]

/-- C4 witness at a concrete tree. -/
theorem c4_install_layout_witness :
    installDependencies
        ⟨false, ManifestState.parsed [], true, true, true, false⟩
        (fun _ => true) "/w/p" =
      ([Effect.install "/w/p", Effect.install "/w/p/frontend",
        Effect.warnNoManifest "/w/p/backend"], none) :=
  c4_install_layout _ _ _ rfl rfl rfl rfl rfl rfl rfl

/-- C5: a failure at any of the three prompts (TTY error, forced closure, or
any other error) makes the interaction flow exit with code 0, never
non-zero; the global SIGINT handler also exits 0. -/
theorem c5_prompt_failures_exit_zero :
    (∀ (e : PromptError) (n a : Except PromptError String),
      (interactionFlow false (Except.error e) n a).1 = Except.error 0) ∧
    (∀ (t : String) (e : PromptError) (a : Except PromptError String),
      (interactionFlow false (Except.ok t) (Except.error e) a).1 = Except.error 0) ∧
    (∀ (t n : String) (e : PromptError),
      (interactionFlow false (Except.ok t) (Except.ok n) (Except.error e)).1 = Except.error 0) ∧
    sigintExitCode = 0 :=
  ⟨fun _ _ _ => rfl, fun _ _ _ => rfl, fun _ _ _ => rfl, rfl⟩

/-- C6 counterexample: the non-empty project name "/tmp/evil" is resolved to
the absolute path "/tmp/evil", which does not lie under the working
directory "/home/user". -/
theorem c6_resolve_counterexample :
    resolvePath "/home/user" "/tmp/evil" = "/tmp/evil" ∧
    isUnder "/home/user" (resolvePath "/home/user" "/tmp/evil") = false ∧
    "/tmp/evil" ≠ "" := by
  decide

/-- C6 (amended): the target check always resolves the project name to an
absolute path, but that path lies under the current working directory only
for relative names: a project name that is itself absolute resolves
independently of the working directory (so it can escape it), while a plain
relative name such as "bsv-app" does resolve under the working directory. -/
theorem c6_resolve_target
    : (∀ cwd p, (resolvePath cwd p).data.head? = some '/') ∧
      (∀ cwd cwd2 p, p.data.head? = some '/' →
        resolvePath cwd p = resolvePath cwd2 p) ∧
      isUnder "/work" (resolvePath "/work" "bsv-app") = true := by
  refine ⟨resolvePath_head, ?_, by decide⟩
  intro cwd cwd2 p h
  simp [resolvePath, h]

/-- C6 witness: an absolute project name resolves the same under two
different working directories. -/
theorem c6_resolve_target_witness :
    resolvePath "/a" "/tmp/evil" = resolvePath "/b" "/tmp/evil" :=
  c6_resolve_target.2.1 "/a" "/b" "/tmp/evil" rfl

/-- C7: for every entry of the template registry, looking up its label
yields exactly its configured URL. -/
theorem c7_registry_lookup :
    ∀ p ∈ templates, templatesLookup p.1 = some p.2 := by
  decide

/-- C7 witness at the registry's single live entry. -/
theorem c7_registry_lookup_witness :
    templatesLookup "Meter - A feature-packed starting point" =
      some "https://github.com/p2ppsr/meter.git" :=
  c7_registry_lookup
    ("Meter - A feature-packed starting point", "https://github.com/p2ppsr/meter.git")
    (by decide)

/-- C8: with `--skip-install`, no install subprocess is invoked in any
directory, whatever the environment, request and remaining options. -/
theorem c8_skip_install (env : Env) (req : ScaffoldRequest)
    (opts : RunOptions) (d : String) (h : opts.skipInstall = true) :
    Effect.install d ∉ (materialize env req opts).1 := by
  rcases env with ⟨cwd, te, co, ⟨hg, rm, fe, fm, be, bm⟩, io, go⟩
  rcases opts with ⟨si, gi, ye⟩
  simp only at h
  subst h
  cases te <;> cases co <;> cases hg <;> cases rm <;> cases gi <;> cases go <;>
    simp [materialize, stepSeq, cloneStep, stripStep, customizePackageJson,
      gitInitStep]

/-- C8 witness at a concrete environment with every directory present. -/
theorem c8_skip_install_witness :
    Effect.install "/w/bsv-app" ∉
      (materialize
        ⟨"/w", false, true, ⟨true, ManifestState.parsed [], true, true, true, true⟩,
          fun _ => true, true⟩
        ⟨"meter", "bsv-app", ""⟩ ⟨true, true, true⟩).1 :=
  c8_skip_install _ _ _ _ rfl

/-- C9: the request built in non-interactive mode stores the template
identifier "meter", which is not a Registry key, so the lookup before
cloning yields none and the clone is invoked with that undefined URL. -/
theorem c9_undefined_clone_url
    (a b c : Except PromptError String) (r : ScaffoldRequest) (env : Env)
    (opts : RunOptions)
    (h : (interactionFlow true a b c).1 = Except.ok r)
    (hte : env.targetExists = false) :
    templatesLookup r.template = none ∧
    (materialize env r opts).1.head? =
      some (Effect.clone none (resolvePath env.cwd r.projectName)) := by
  simp only [interactionFlow] at h
  injection h with h
  subst h
  refine ⟨by decide, ?_⟩
  have hm : templatesLookup "meter" = none := by decide
  rcases env with ⟨cwd, te, co, tree, io, go⟩
  simp only at hte
  subst hte
  cases co <;>
    simp [materialize, stepSeq, cloneStep, hm]

/-- C9 witness at a concrete environment. -/
theorem c9_undefined_clone_url_witness :
    templatesLookup (ScaffoldRequest.mk "meter" "bsv-app" "").template = none ∧
    (materialize
        ⟨"/w", false, true, ⟨true, ManifestState.parsed [], false, false, false, false⟩,
          fun _ => true, true⟩
        ⟨"meter", "bsv-app", ""⟩ ⟨false, false, true⟩).1.head? =
      some (Effect.clone none (resolvePath "/w" "bsv-app")) :=
  c9_undefined_clone_url (Except.ok "") (Except.ok "") (Except.ok "") _ _ _ rfl rfl

/-- C10: with the target free, the clone succeeding, and the cloned root
manifest present but unparseable, the run performs exactly the clone and the
history strip, then aborts with exit code 1: no manifest write, no install,
no git init — the history-stripped clone stays on disk. -/
theorem c10_unparseable_manifest (env : Env) (req : ScaffoldRequest)
    (opts : RunOptions)
    (hte : env.targetExists = false) (hco : env.cloneOk = true)
    (hrm : env.tree.rootManifest = ManifestState.unparseable) :
    materialize env req opts =
      (Effect.clone (templatesLookup req.template)
          (resolvePath env.cwd req.projectName) ::
        (if env.tree.hasGitDir then
          [Effect.removeGitDir (resolvePath env.cwd req.projectName ++ "/.git")]
        else []),
       1) := by
  rcases env with ⟨cwd, te, co, ⟨hg, rm, fe, fm, be, bm⟩, io, go⟩
  simp only at hte hco hrm
  subst hte hco hrm
  cases hg <;>
    simp [materialize, stepSeq, cloneStep, stripStep, customizePackageJson]

/-- C10 witness at a concrete environment with a `.git` directory present. -/
theorem c10_unparseable_manifest_witness :
    materialize
        ⟨"/w", false, true, ⟨true, ManifestState.unparseable, true, true, false, false⟩,
          fun _ => true, true⟩
        ⟨"meter", "bsv-app", ""⟩ ⟨false, false, true⟩ =
      (Effect.clone (templatesLookup "meter") (resolvePath "/w" "bsv-app") ::
        [Effect.removeGitDir (resolvePath "/w" "bsv-app" ++ "/.git")], 1) :=
  c10_unparseable_manifest _ _ _ rfl rfl rfl
